import Mathlib

/-!
Shallow embedding of the `ocpi-pydantic` OCPI 2.2.1 data model
(`src/ocpi_pydantic/v221/`): the pydantic models, their per-field
constraints, and the validation outcome (a list of per-field violations,
empty exactly when validation succeeds), together with theorems settling
the specification claims.

Conventions of the embedding:
 - A pydantic model is embedded as an "input" structure whose fields are
   `Option`-valued: `none` models a key absent from the decoded JSON
   object, `some v` a present value.  An `...Errors` function mirrors
   pydantic validation: it checks every field independently and returns
   the list of all violations (pydantic collects one error per failing
   field, it does not stop at the first), in field declaration order.
   Validation succeeds exactly when the list is empty.
 - Python `datetime` is embedded as `PyDatetime`; `utcOffsetMinutes = none`
   models a naive datetime (no tzinfo).  pydantic `AwareDatetime` adds the
   check that the offset is present; a plain `datetime` annotation adds no
   such check.
 - A Python `str` enum is embedded as its list of member value tokens;
   decoding checks membership.  Where member *names* matter (attribute
   access on the enum class), the embedding keeps (name, value) pairs.
-/

/-- Embedding of Python `datetime.datetime`: broken-down time plus an
optional UTC offset; `utcOffsetMinutes = none` is a naive datetime. -/
structure PyDatetime where
  year : Nat
  month : Nat
  day : Nat
  hour : Nat
  minute : Nat
  second : Nat
  microsecond : Nat
  utcOffsetMinutes : Option Int
deriving DecidableEq, Repr

/-- A datetime is aware when it carries an explicit UTC offset. -/
def PyDatetime.isAware (d : PyDatetime) : Bool := d.utcOffsetMinutes.isSome

/-- Embedding of Python `datetime.replace(microsecond=m)`. -/
def PyDatetime.replaceMicrosecond (d : PyDatetime) (m : Nat) : PyDatetime :=
  { d with microsecond := m }

/-- The constraint kind a single violation reports (mirrors the pydantic
error types produced by the constraints used in this code base). -/
inductive OcpiRuleKind
  | missing
  | stringTooShort
  | stringTooLong
  | enumMember
  | notAware
  | urlForm
  | listTooShort
deriving DecidableEq, Repr

/-- One validation violation: the dotted field path and the rule violated. -/
structure OcpiViolation where
  loc : List String
  rule : OcpiRuleKind
deriving DecidableEq, Repr

/-- Check a required field: absent yields exactly one `missing` violation at
this path and nothing else is checked; present values run the payload check. -/
def checkReq {α : Type} (loc : List String) (v : Option α)
    (k : α → List OcpiViolation) : List OcpiViolation :=
  match v with
  | none => [⟨loc, .missing⟩]
  | some x => k x

/-- Check an optional field: absent is fine (pydantic applies the default). -/
def checkOpt {α : Type} (v : Option α) (k : α → List OcpiViolation) :
    List OcpiViolation :=
  match v with
  | none => []
  | some x => k x

/-- Embedding of `Field(..., max_length=n)` on a string. -/
def checkMaxLen (loc : List String) (n : Nat) (s : String) : List OcpiViolation :=
  if n < s.length then [⟨loc, .stringTooLong⟩] else []

/-- Embedding of `Field(..., min_length=n)` on a string. -/
def checkMinLen (loc : List String) (n : Nat) (s : String) : List OcpiViolation :=
  if s.length < n then [⟨loc, .stringTooShort⟩] else []

/-- Embedding of decoding a value into a closed Python `str` enum: the raw
token must be one of the member values, byte for byte. -/
def checkEnum (loc : List String) (tokens : List String) (s : String) :
    List OcpiViolation :=
  if tokens.contains s then [] else [⟨loc, .enumMember⟩]

/-- Embedding of the pydantic `AwareDatetime` annotation: the datetime must
carry an explicit UTC offset. -/
def checkAware (loc : List String) (d : PyDatetime) : List OcpiViolation :=
  if d.isAware then [] else [⟨loc, .notAware⟩]

/-- Embedding of a URL value as pydantic `HttpUrl` sees it: a scheme, a
host, and the remainder of the URL text. -/
structure HttpUrlVal where
  scheme : String
  host : String
  rest : String
deriving DecidableEq, Repr

/-- Embedding of the pydantic `HttpUrl` check: http(s) scheme and a host. -/
def checkHttpUrl (loc : List String) (u : HttpUrlVal) : List OcpiViolation :=
  if (u.scheme = "http" || u.scheme = "https") && u.host ≠ "" then []
  else [⟨loc, .urlForm⟩]

/-- Prefix every violation's path with one path segment (nested model
validation reports dotted paths into the nested aggregate). -/
def atLoc (seg : String) (vs : List OcpiViolation) : List OcpiViolation :=
  vs.map (fun v => ⟨seg :: v.loc, v.rule⟩)

/-- Validate each element of a list field, paths indexed by position. -/
def listErrors {α : Type} (seg : String) (xs : List α)
    (k : α → List OcpiViolation) : List OcpiViolation :=
  (xs.enum.map (fun p => atLoc seg (atLoc (Nat.repr p.fst) (k p.snd)))).flatten

/-- Decoded-JSON form of `OcpiDisplayText` (base.py): `language` has
`max_length=2` and no minimum; `text` has `max_length=512`. -/
structure OcpiDisplayTextInput where
  language : Option String
  text : Option String
deriving DecidableEq, Repr

/-- Validation of `OcpiDisplayText` exactly as annotated in base.py. -/
def ocpiDisplayTextErrors (i : OcpiDisplayTextInput) : List OcpiViolation :=
  checkReq ["language"] i.language (checkMaxLen ["language"] 2) ++
  checkReq ["text"] i.text (checkMaxLen ["text"] 512)

/-- Decoded-JSON form of `OcpiGeoLocation` (base.py). -/
structure OcpiGeoLocationInput where
  latitude : Option String
  longitude : Option String
deriving DecidableEq, Repr

/-- Validation of `OcpiGeoLocation`: `latitude` `max_length=10`,
`longitude` `max_length=11`, both required. -/
def ocpiGeoLocationErrors (i : OcpiGeoLocationInput) : List OcpiViolation :=
  checkReq ["latitude"] i.latitude (checkMaxLen ["latitude"] 10) ++
  checkReq ["longitude"] i.longitude (checkMaxLen ["longitude"] 11)

/-- Decoded-JSON form of `OcpiImage` (base.py). -/
structure OcpiImageInput where
  url : Option HttpUrlVal
  thumbnail : Option HttpUrlVal
  category : Option String
  type : Option String
  width : Option Int
  height : Option Int
deriving DecidableEq, Repr

/-- Validation of `OcpiImage`: `url` required `HttpUrl`, `thumbnail`
optional `HttpUrl`, `category` and `type` required strings, `width` and
`height` optional ints. -/
def ocpiImageErrors (i : OcpiImageInput) : List OcpiViolation :=
  checkReq ["url"] i.url (checkHttpUrl ["url"]) ++
  checkOpt i.thumbnail (checkHttpUrl ["thumbnail"]) ++
  checkReq ["category"] i.category (fun _ => []) ++
  checkReq ["type"] i.type (fun _ => []) ++
  []

/-- Modelled from the spec: the member value tokens of `OcpiTokenTypeEnum`.
The class lives in `ocpi_pydantic.v221.enum`, a module this repository
imports (cdrs/__init__.py line 4) but whose file is not under src/; the
spec lists a closed "token type" enumeration, and the repository's own
canonical examples use the token `"RFID"`. -/
def ocpiTokenTypeTokens : List String :=
  ["AD_HOC_USER", "APP_USER", "OTHER", "RFID"]

/-- Decoded-JSON form of `OcpiCdrToken` (cdrs/__init__.py). -/
structure OcpiCdrTokenInput where
  country_code : Option String
  party_id : Option String
  uid : Option String
  type : Option String
  contract_id : Option String
deriving DecidableEq, Repr

/-- Validation of `OcpiCdrToken` exactly as annotated in cdrs/__init__.py:
`country_code` `min_length=2, max_length=2`; `party_id` `min_length=3,
max_length=3`; `uid` `max_length=36`; `type` a `OcpiTokenTypeEnum`;
`contract_id` a required unconstrained string. -/
def ocpiCdrTokenErrors (i : OcpiCdrTokenInput) : List OcpiViolation :=
  checkReq ["country_code"] i.country_code
    (fun s => checkMinLen ["country_code"] 2 s ++ checkMaxLen ["country_code"] 2 s) ++
  checkReq ["party_id"] i.party_id
    (fun s => checkMinLen ["party_id"] 3 s ++ checkMaxLen ["party_id"] 3 s) ++
  checkReq ["uid"] i.uid (checkMaxLen ["uid"] 36) ++
  checkReq ["type"] i.type (checkEnum ["type"] ocpiTokenTypeTokens) ++
  checkReq ["contract_id"] i.contract_id (fun _ => [])

/-- The member value tokens of `OcpiConnectorTypeEnum`
(locations/connector.py lines 8-51). -/
def ocpiConnectorTypeTokens : List String :=
  ["CHADEMO", "CHAOJI",
   "DOMESTIC_A", "DOMESTIC_B", "DOMESTIC_C", "DOMESTIC_D", "DOMESTIC_E",
   "DOMESTIC_F", "DOMESTIC_G", "DOMESTIC_H", "DOMESTIC_I", "DOMESTIC_J",
   "DOMESTIC_K", "DOMESTIC_L", "DOMESTIC_M", "DOMESTIC_N", "DOMESTIC_O",
   "GBT_AC", "GBT_DC",
   "IEC_60309_2_single_16", "IEC_60309_2_three_16", "IEC_60309_2_three_32",
   "IEC_60309_2_three_64",
   "IEC_62196_T1", "IEC_62196_T1_COMBO", "IEC_62196_T2", "IEC_62196_T2_COMBO",
   "IEC_62196_T3A", "IEC_62196_T3C",
   "NEMA_5_20", "NEMA_6_30", "NEMA_6_50", "NEMA_10_30", "NEMA_10_50",
   "NEMA_14_30", "NEMA_14_50",
   "PANTOGRAPH_BOTTOM_UP", "PANTOGRAPH_TOP_DOWN",
   "TESLA_R", "TESLA_S"]

/-- The member value tokens of `OcpiConnectorFormatEnum`
(locations/connector.py lines 55-60). -/
def ocpiConnectorFormatTokens : List String := ["SOCKET", "CABLE"]

/-- The member value tokens of `OcpiPowerTypeEnum`
(locations/connector.py lines 64-72). -/
def ocpiPowerTypeTokens : List String :=
  ["AC_1_PHASE", "AC_2_PHASE", "AC_2_PHASE_SPLIT", "AC_3_PHASE", "DC"]

/-- Decoded-JSON form of `OcpiConnector` (locations/connector.py lines
76-89). -/
structure OcpiConnectorInput where
  id : Option String
  standard : Option String
  format : Option String
  power_type : Option String
  max_voltage : Option Int
  max_amperage : Option Int
  max_electric_power : Option Int
  tariff_ids : Option (List String)
  terms_and_conditions : Option HttpUrlVal
  last_updated : Option PyDatetime
deriving DecidableEq, Repr

/-- Validation of `OcpiConnector` exactly as annotated in connector.py:
`id` required `max_length=36`; `standard`, `format`, `power_type` required
enum members; `max_voltage` and `max_amperage` required plain `int` with no
range constraint; `max_electric_power` optional int; `tariff_ids` an
optional string list defaulting to `[]`; `terms_and_conditions` optional
`HttpUrl`; `last_updated` required `AwareDatetime`. -/
def ocpiConnectorErrors (i : OcpiConnectorInput) : List OcpiViolation :=
  checkReq ["id"] i.id (checkMaxLen ["id"] 36) ++
  checkReq ["standard"] i.standard (checkEnum ["standard"] ocpiConnectorTypeTokens) ++
  checkReq ["format"] i.format (checkEnum ["format"] ocpiConnectorFormatTokens) ++
  checkReq ["power_type"] i.power_type (checkEnum ["power_type"] ocpiPowerTypeTokens) ++
  checkReq ["max_voltage"] i.max_voltage (fun _ => []) ++
  checkReq ["max_amperage"] i.max_amperage (fun _ => []) ++
  checkOpt i.terms_and_conditions (checkHttpUrl ["terms_and_conditions"]) ++
  checkReq ["last_updated"] i.last_updated (checkAware ["last_updated"])

/-- A sample aware datetime (offset `+00:00`), 2015-06-29T22:39:09Z. -/
def awareDt : PyDatetime :=
  ⟨2015, 6, 29, 22, 39, 9, 0, some 0⟩

/-- A sample naive datetime (no tzinfo), 2015-06-30T21:59:59. -/
def naiveDt : PyDatetime :=
  ⟨2015, 6, 30, 21, 59, 59, 0, none⟩

/-- Embedding of `OcpiStatus` (base.py lines 9-26), the `IntEnum` of OCPI
status codes. -/
inductive OcpiStatus
  | SUCCESS
  | CLIENT_ERROR
  | INVALID_OR_MISSING_PARAMETERS
  | NOT_ENOUGH_INFORMATION
  | UNKNOWN_LOCATION
  | UNKNOWN_TOKEN
  | SERVER_ERROR
  | UNABLE_TO_USE_THE_CLIENTS_API
  | UNSUPPORTED_VERSION
  | NO_MATCHING_ENDPOINTS_OR_EXPECTED_ENDPOINTS_MISSING_BETWEEN_PARTIES
  | HUB_ERROR
  | UNKNOWN_RECEIVER
  | TIMEOUT_ON_FORWARDED_REQUEST
  | CONNECTION_PROBLEM
deriving DecidableEq, Repr

/-- The numeric value of each `OcpiStatus` member (base.py lines 9-26). -/
def OcpiStatus.toInt : OcpiStatus → Int
  | .SUCCESS => 1000
  | .CLIENT_ERROR => 2000
  | .INVALID_OR_MISSING_PARAMETERS => 2001
  | .NOT_ENOUGH_INFORMATION => 2002
  | .UNKNOWN_LOCATION => 2003
  | .UNKNOWN_TOKEN => 2004
  | .SERVER_ERROR => 3000
  | .UNABLE_TO_USE_THE_CLIENTS_API => 3001
  | .UNSUPPORTED_VERSION => 3002
  | .NO_MATCHING_ENDPOINTS_OR_EXPECTED_ENDPOINTS_MISSING_BETWEEN_PARTIES => 3003
  | .HUB_ERROR => 4000
  | .UNKNOWN_RECEIVER => 4001
  | .TIMEOUT_ON_FORWARDED_REQUEST => 4002
  | .CONNECTION_PROBLEM => 4003

/-- Embedding of decoding an integer into the `OcpiStatus` `IntEnum`: only
the declared member values are accepted (pydantic enum coercion). -/
def OcpiStatus.ofInt (n : Int) : Option OcpiStatus :=
  if n = 1000 then some .SUCCESS
  else if n = 2000 then some .CLIENT_ERROR
  else if n = 2001 then some .INVALID_OR_MISSING_PARAMETERS
  else if n = 2002 then some .NOT_ENOUGH_INFORMATION
  else if n = 2003 then some .UNKNOWN_LOCATION
  else if n = 2004 then some .UNKNOWN_TOKEN
  else if n = 3000 then some .SERVER_ERROR
  else if n = 3001 then some .UNABLE_TO_USE_THE_CLIENTS_API
  else if n = 3002 then some .UNSUPPORTED_VERSION
  else if n = 3003 then some .NO_MATCHING_ENDPOINTS_OR_EXPECTED_ENDPOINTS_MISSING_BETWEEN_PARTIES
  else if n = 4000 then some .HUB_ERROR
  else if n = 4001 then some .UNKNOWN_RECEIVER
  else if n = 4002 then some .TIMEOUT_ON_FORWARDED_REQUEST
  else if n = 4003 then some .CONNECTION_PROBLEM
  else none

/-- Wire (decoded JSON) form of `OcpiBaseResponse` (base.py lines 100-110),
generic in the payload type `J` like the pydantic model is generic in
`OcpiResponseDataGenericType`.  Each field's outer `Option` is key
presence; `data`'s and `status_message`'s inner `Option` is an explicit
JSON `null`. -/
structure OcpiBaseResponseWire (J : Type) where
  data : Option (Option J)
  status_code : Option Int
  status_message : Option (Option String)
  timestamp : Option PyDatetime
deriving DecidableEq, Repr

/-- Embedding of a validated `OcpiBaseResponse` instance.  `fieldsSet`
models pydantic's `model_fields_set`: the names of the fields that were
explicitly provided (rather than filled from a default). -/
structure OcpiBaseResponse (J : Type) where
  data : Option J
  status_code : OcpiStatus
  status_message : Option String
  timestamp : PyDatetime
  fieldsSet : List String
deriving DecidableEq, Repr

/-- The names of the keys present in a wire form, in field declaration
order (pydantic's `model_fields_set` for a decode of that wire form). -/
def wireFieldsSet {J : Type} (w : OcpiBaseResponseWire J) : List String :=
  (if w.data.isSome then ["data"] else []) ++
  (if w.status_code.isSome then ["status_code"] else []) ++
  (if w.status_message.isSome then ["status_message"] else []) ++
  (if w.timestamp.isSome then ["timestamp"] else [])

/-- Embedding of the `timestamp` default factory (base.py line 110):
`datetime.now(timezone.utc).replace(microsecond=0)`.  The argument `now`
stands for the value `datetime.now(timezone.utc)` returns at this call
(an aware UTC datetime); the factory truncates it to whole seconds.  It is
re-evaluated at every construction: the embedding takes it as a parameter
of each decode/construction call, never from global state. -/
def envelopeDefaultTimestamp (now : PyDatetime) : PyDatetime :=
  now.replaceMicrosecond 0

/-- Validation of `OcpiBaseResponse` exactly as annotated in base.py lines
107-110: `data` optional with default `None` and an unconstrained generic
payload; `status_code` a required `OcpiStatus`; `status_message` optional;
`timestamp` a plain `datetime` (not `AwareDatetime`, so no
timezone-awareness check) with the default factory above. -/
def ocpiBaseResponseErrors {J : Type} (w : OcpiBaseResponseWire J) :
    List OcpiViolation :=
  checkReq ["status_code"] w.status_code
    (fun n => if (OcpiStatus.ofInt n).isSome then [] else [⟨["status_code"], .enumMember⟩])

/-- Decode (pydantic model validation) of `OcpiBaseResponse`: on success
the instance carries the decoded fields, defaults for the absent ones, and
the set of explicitly provided field names. -/
def decodeOcpiBaseResponse {J : Type} (now : PyDatetime)
    (w : OcpiBaseResponseWire J) :
    Except (List OcpiViolation) (OcpiBaseResponse J) :=
  match w.status_code with
  | none => .error [⟨["status_code"], .missing⟩]
  | some n =>
    match OcpiStatus.ofInt n with
    | none => .error [⟨["status_code"], .enumMember⟩]
    | some sc =>
      .ok { data := (w.data.getD none)
            status_code := sc
            status_message := (w.status_message.getD none)
            timestamp := w.timestamp.getD (envelopeDefaultTimestamp now)
            fieldsSet := wireFieldsSet w }

/-- Encode of `OcpiBaseResponse` in the mode a round-trip test uses,
pydantic `model_dump(exclude_unset=True)`: a field is emitted exactly when
it is in `model_fields_set`, so a key absent from the input stays absent
and an explicit `null` stays an explicit `null`. -/
def encodeOcpiBaseResponse {J : Type} (r : OcpiBaseResponse J) :
    OcpiBaseResponseWire J :=
  { data := if r.fieldsSet.contains "data" then some r.data else none
    status_code := if r.fieldsSet.contains "status_code" then some r.status_code.toInt else none
    status_message := if r.fieldsSet.contains "status_message" then some r.status_message else none
    timestamp := if r.fieldsSet.contains "timestamp" then some r.timestamp else none }

/-- A connector input valid except that the voltage and amperage are the
given integers (the other fields follow the repository's examples). -/
def connectorInputVA (v a : Int) : OcpiConnectorInput :=
  { id := some "1"
    standard := some "IEC_62196_T2"
    format := some "CABLE"
    power_type := some "AC_3_PHASE"
    max_voltage := some v
    max_amperage := some a
    max_electric_power := none
    tariff_ids := none
    terms_and_conditions := none
    last_updated := some awareDt }

/-- The member value tokens of `OcpiStatusEnum` (locations/evse.py lines
11-23). -/
def ocpiStatusTokens : List String :=
  ["AVAILABLE", "BLOCKED", "CHARGING", "INOPERATIVE", "OUTOFORDER",
   "PLANNED", "REMOVED", "RESERVED", "UNKNOWN"]

/-- The member value tokens of `OcpiCapabilityEnum` (locations/evse.py
lines 39-55). -/
def ocpiCapabilityTokens : List String :=
  ["CHARGING_PROFILE_CAPABLE", "CHARGING_PREFERENCES_CAPABLE",
   "CHIP_CARD_SUPPORT", "CONTACTLESS_CARD_SUPPORT", "CREDIT_CARD_PAYABLE",
   "DEBIT_CARD_PAYABLE", "PED_TERMINAL", "REMOTE_START_STOP_CAPABLE",
   "RESERVABLE", "RFID_READER", "START_SESSION_CONNECTOR_REQUIRED",
   "TOKEN_GROUP_CAPABLE", "UNLOCK_CAPABLE"]

/-- The member value tokens of `OcpiParkingRestrictionEnum`
(locations/evse.py lines 59-67). -/
def ocpiParkingRestrictionTokens : List String :=
  ["EV_ONLY", "PLUGGED", "DISABLED", "CUSTOMERS", "MOTORCYCLES"]

/-- Decoded-JSON form of `OcpiStatusSchedule` (locations/evse.py lines
27-35). -/
structure OcpiStatusScheduleInput where
  period_begin : Option PyDatetime
  period_end : Option PyDatetime
  status : Option String
deriving DecidableEq, Repr

/-- Validation of `OcpiStatusSchedule`: `period_begin` required
`AwareDatetime`; `period_end` optional `AwareDatetime`; `status` a
required `OcpiStatusEnum` member. -/
def ocpiStatusScheduleErrors (i : OcpiStatusScheduleInput) : List OcpiViolation :=
  checkReq ["period_begin"] i.period_begin (checkAware ["period_begin"]) ++
  checkOpt i.period_end (checkAware ["period_end"]) ++
  checkReq ["status"] i.status (checkEnum ["status"] ocpiStatusTokens)

/-- Decoded-JSON form of `OcpiEvse` (locations/evse.py lines 71-87). -/
structure OcpiEvseInput where
  uid : Option String
  evse_id : Option String
  status : Option String
  status_schedule : Option (List OcpiStatusScheduleInput)
  capabilities : Option (List String)
  connectors : Option (List OcpiConnectorInput)
  floor_level : Option String
  coordinates : Option OcpiGeoLocationInput
  physical_reference : Option String
  directions : Option (List OcpiDisplayTextInput)
  parking_restrictions : Option (List String)
  images : Option (List OcpiImageInput)
  last_updated : Option PyDatetime
deriving DecidableEq, Repr

/-- Validation of `OcpiEvse` exactly as annotated in locations/evse.py:
`uid` required `max_length=36`; `evse_id` optional `max_length=48`;
`status` a required `OcpiStatusEnum` member; the list fields default to
`[]` when absent and carry NO minimum length (in particular `connectors`
may be the empty list); `floor_level` optional `max_length=4`;
`coordinates` an optional nested `OcpiGeoLocation`; `physical_reference`
optional `max_length=16`; `last_updated` required `AwareDatetime`. -/
def ocpiEvseErrors (i : OcpiEvseInput) : List OcpiViolation :=
  checkReq ["uid"] i.uid (checkMaxLen ["uid"] 36) ++
  checkOpt i.evse_id (checkMaxLen ["evse_id"] 48) ++
  checkReq ["status"] i.status (checkEnum ["status"] ocpiStatusTokens) ++
  checkOpt i.status_schedule (fun xs => listErrors "status_schedule" xs ocpiStatusScheduleErrors) ++
  checkOpt i.capabilities (fun xs => listErrors "capabilities" xs
    (fun s => checkEnum [] ocpiCapabilityTokens s)) ++
  checkOpt i.connectors (fun xs => listErrors "connectors" xs ocpiConnectorErrors) ++
  checkOpt i.floor_level (checkMaxLen ["floor_level"] 4) ++
  checkOpt i.coordinates (fun c => atLoc "coordinates" (ocpiGeoLocationErrors c)) ++
  checkOpt i.physical_reference (checkMaxLen ["physical_reference"] 16) ++
  checkOpt i.directions (fun xs => listErrors "directions" xs ocpiDisplayTextErrors) ++
  checkOpt i.parking_restrictions (fun xs => listErrors "parking_restrictions" xs
    (fun s => checkEnum [] ocpiParkingRestrictionTokens s)) ++
  checkOpt i.images (fun xs => listErrors "images" xs ocpiImageErrors) ++
  checkReq ["last_updated"] i.last_updated (checkAware ["last_updated"])

/-- Modelled from the spec: the standalone EVSE-response shape.  Only the
embedded `OcpiEvse` class is under src/; the spec states that an EVSE
"instantiated as the standalone response payload with an empty
`connectors` list must fail (minimum one connector in that context)" and
that the two contexts "must be modeled as distinct shapes".  This shape
therefore validates as `OcpiEvse` plus a minimum length of one on
`connectors` (an absent list defaults to `[]` and also fails the
minimum). -/
def ocpiEvseStandaloneErrors (i : OcpiEvseInput) : List OcpiViolation :=
  ocpiEvseErrors i ++
  (if (i.connectors.getD []).isEmpty then [⟨["connectors"], .listTooShort⟩] else [])

/-- Modelled from the spec: a `Location`'s embedded EVSE collection.  The
`Location` aggregate is not under src/; the spec states it embeds EVSEs by
value and that "zero connectors are legal inside a Location's embedded
EVSE list", i.e. each element validates as the plain `OcpiEvse` (which
imposes no connector minimum). -/
def ocpiLocationEvsesErrors (evses : List OcpiEvseInput) : List OcpiViolation :=
  listErrors "evses" evses ocpiEvseErrors

/-- Modelled from the spec: the member value tokens of
`OcpiAuthMethodEnum`, imported by sessions/__init__.py from the
`ocpi_pydantic.v221.enum` module that is not under src/.  The session
docstring in src names `COMMAND` and `WHITELIST`; the spec's closed "auth
method" enumeration also carries real-time authorization requests. -/
def ocpiAuthMethodTokens : List String :=
  ["AUTH_REQUEST", "COMMAND", "WHITELIST"]

/-- Modelled from the spec: the member value tokens of
`OcpiSessionStatusEnum`, imported by sessions/__init__.py from the
`ocpi_pydantic.v221.enum` module that is not under src/.  The spec names
the `PENDING` and `COMPLETED` phases; the closed session-status
enumeration of the protocol also holds the active, invalidated and
reservation states. -/
def ocpiSessionStatusTokens : List String :=
  ["ACTIVE", "COMPLETED", "INVALID", "PENDING", "RESERVATION"]

/-- Modelled from the spec: the `OcpiPrice` price-breakdown class,
imported by sessions/__init__.py from `ocpi_pydantic.v221.base` but absent
from the base.py under src/.  The spec describes it as a price breakdown;
the repository's examples use the keys `excl_vat` (required) and
`incl_vat` (optional). -/
structure OcpiPriceVal where
  excl_vat : Rat
  incl_vat : Option Rat
deriving DecidableEq, Repr

/-- Modelled from the spec: one CDR dimension of a charging period (the
"charging-period/dimension" composite value object), a type token with a
volume. -/
structure OcpiCdrDimensionVal where
  type : String
  volume : Rat
deriving DecidableEq, Repr

/-- Modelled from the spec: the `OcpiChargingPeriod` class, imported by
sessions/__init__.py from `ocpi_pydantic.v221.cdrs` but absent from the
cdrs/__init__.py under src/: a period start timestamp, a list of
dimensions, and an optional tariff id. -/
structure OcpiChargingPeriodVal where
  start_date_time : PyDatetime
  dimensions : List OcpiCdrDimensionVal
  tariff_id : Option String
deriving DecidableEq, Repr

/-- Validation of a charging period: the start timestamp is an
`AwareDatetime` like every other OCPI timestamp. -/
def ocpiChargingPeriodErrors (p : OcpiChargingPeriodVal) : List OcpiViolation :=
  checkAware ["start_date_time"] p.start_date_time

/-- Decoded-JSON form of `OcpiSession` (sessions/__init__.py lines
58-75). -/
structure OcpiSessionInput where
  country_code : Option String
  party_id : Option String
  id : Option String
  start_date_time : Option PyDatetime
  end_date_time : Option PyDatetime
  kwh : Option Int
  cdr_token : Option OcpiCdrTokenInput
  auth_method : Option String
  authorization_reference : Option String
  location_id : Option String
  evse_uid : Option String
  connector_id : Option String
  meter_id : Option String
  currency : Option String
  charging_periods : Option (List OcpiChargingPeriodVal)
  total_cost : Option OcpiPriceVal
  status : Option String
  last_updated : Option PyDatetime
deriving DecidableEq, Repr

/-- Validation of `OcpiSession` exactly as annotated in
sessions/__init__.py lines 58-75: thirteen required fields
(`country_code` exactly 2, `party_id` exactly 3, `id` at most 36,
`start_date_time` aware, `kwh` int, `cdr_token` nested, `auth_method`
enum, `location_id` / `evse_uid` / `connector_id` at most 36 with no
other constraint — the `#NA` sentinel passes like any short string —
`currency` at most 3, `status` enum, `last_updated` aware) and five
optional ones.  Each field is checked independently and every violation
is collected. -/
def ocpiSessionErrors (i : OcpiSessionInput) : List OcpiViolation :=
  checkReq ["country_code"] i.country_code
    (fun s => checkMinLen ["country_code"] 2 s ++ checkMaxLen ["country_code"] 2 s) ++
  checkReq ["party_id"] i.party_id
    (fun s => checkMinLen ["party_id"] 3 s ++ checkMaxLen ["party_id"] 3 s) ++
  checkReq ["id"] i.id (checkMaxLen ["id"] 36) ++
  checkReq ["start_date_time"] i.start_date_time (checkAware ["start_date_time"]) ++
  checkOpt i.end_date_time (checkAware ["end_date_time"]) ++
  checkReq ["kwh"] i.kwh (fun _ => []) ++
  checkReq ["cdr_token"] i.cdr_token (fun t => atLoc "cdr_token" (ocpiCdrTokenErrors t)) ++
  checkReq ["auth_method"] i.auth_method (checkEnum ["auth_method"] ocpiAuthMethodTokens) ++
  checkOpt i.authorization_reference (checkMaxLen ["authorization_reference"] 36) ++
  checkReq ["location_id"] i.location_id (checkMaxLen ["location_id"] 36) ++
  checkReq ["evse_uid"] i.evse_uid (checkMaxLen ["evse_uid"] 36) ++
  checkReq ["connector_id"] i.connector_id (checkMaxLen ["connector_id"] 36) ++
  checkOpt i.meter_id (checkMaxLen ["meter_id"] 255) ++
  checkReq ["currency"] i.currency (checkMaxLen ["currency"] 3) ++
  checkOpt i.charging_periods (fun xs => listErrors "charging_periods" xs ocpiChargingPeriodErrors) ++
  checkReq ["status"] i.status (checkEnum ["status"] ocpiSessionStatusTokens) ++
  checkReq ["last_updated"] i.last_updated (checkAware ["last_updated"])

/-- The (member name, member value) pairs of `OcpiVersionNumberEnum`
(versions/__init__.py lines 10-12): the single member is named `v221`
with value `"2.2.1"`. -/
def ocpiVersionNumberEnumMembers : List (String × String) :=
  [("v221", "2.2.1")]

/-- Embedding of Python attribute access on an enum class
(`EnumClass.member_name`): the value of the member with that name, or
`none` when no such member exists (Python raises `AttributeError`). -/
def pyEnumGetattr (members : List (String × String)) (attr : String) :
    Option String :=
  (members.find? (fun m => m.fst = attr)).map (fun m => m.snd)

/-- An EVSE input, valid as an embedded EVSE, whose `connectors` list is
explicitly the empty list (the other fields follow the repository's
examples). -/
def evseEmptyConnectors : OcpiEvseInput :=
  { uid := some "3256"
    evse_id := none
    status := some "AVAILABLE"
    status_schedule := none
    capabilities := none
    connectors := some []
    floor_level := none
    coordinates := none
    physical_reference := none
    directions := none
    parking_restrictions := none
    images := none
    last_updated := some awareDt }

/-- A valid `OcpiCdrToken` input (fields from the repository's canonical
example values). -/
def cdrTokenValid : OcpiCdrTokenInput :=
  ⟨some "NL", some "TNM", some "123abc", some "RFID", some "NL-TST-C12345678-S"⟩

/-- A fully valid `OcpiSession` input (fields from the repository's first
canonical session example, with a complete `cdr_token`). -/
def sessionBase : OcpiSessionInput :=
  { country_code := some "NL"
    party_id := some "STK"
    id := some "101"
    start_date_time := some awareDt
    end_date_time := none
    kwh := some 0
    cdr_token := some cdrTokenValid
    auth_method := some "WHITELIST"
    authorization_reference := none
    location_id := some "LOC1"
    evse_uid := some "3256"
    connector_id := some "1"
    meter_id := none
    currency := some "EUR"
    charging_periods := none
    total_cost := none
    status := some "PENDING"
    last_updated := some awareDt }

/-- A session input with every field omitted. -/
def sessionAllOmitted : OcpiSessionInput :=
  ⟨none, none, none, none, none, none, none, none, none, none, none, none,
   none, none, none, none, none, none⟩

/-- The session of the PENDING-phase claim: both `evse_uid` and
`connector_id` hold the `#NA` sentinel and `status` is `PENDING`. -/
def c9Session : OcpiSessionInput :=
  { sessionBase with
      evse_uid := some "#NA"
      connector_id := some "#NA"
      status := some "PENDING"
      charging_periods := some []
      total_cost := some ⟨(5 : Rat) / 2, none⟩ }

/-- The envelope wire form of the spec's error example: `data` entirely
absent, `status_code` 2001, explicit `status_message` and `timestamp`. -/
def c3WireOmitted : OcpiBaseResponseWire Unit :=
  ⟨none, some 2001, some (some "Missing required field: type"), some awareDt⟩

/-- The decode of `c3WireOmitted`. -/
def c3RecOmitted : OcpiBaseResponse Unit :=
  ⟨none, .INVALID_OR_MISSING_PARAMETERS, some "Missing required field: type",
   awareDt, ["status_code", "status_message", "timestamp"]⟩

/-- A success envelope wire form with `data` explicitly `null`. -/
def c3WireNull : OcpiBaseResponseWire Unit :=
  ⟨some none, some 1000, some (some "Success"), some awareDt⟩

/-- The decode of `c3WireNull`: `data` is `None` and `"data"` is in the
fields set. -/
def c3RecNull : OcpiBaseResponse Unit :=
  ⟨none, .SUCCESS, some "Success", awareDt,
   ["data", "status_code", "status_message", "timestamp"]⟩

/-- A wire form identical to `c3WireNull` except that the `data` key is
entirely absent, isolating omitted-vs-null as the only difference. -/
def c3WireOmitted1000 : OcpiBaseResponseWire Unit :=
  ⟨none, some 1000, some (some "Success"), some awareDt⟩

/-- The decode of `c3WireOmitted1000`: same field values as `c3RecNull`
but `"data"` is not in the fields set. -/
def c3RecOmitted1000 : OcpiBaseResponse Unit :=
  ⟨none, .SUCCESS, some "Success", awareDt,
   ["status_code", "status_message", "timestamp"]⟩

/-- An envelope wire form whose `status_code` is the given integer and
whose other fields are valid. -/
def c4StatusWire (n : Int) : OcpiBaseResponseWire Unit :=
  ⟨none, some n, none, some awareDt⟩

/-- A clock reading for the default-timestamp claim: an aware UTC instant
with a nonzero sub-second component. -/
def c7Now : PyDatetime := ⟨2026, 10, 12, 8, 30, 5, 123456, some 0⟩

/-- An envelope wire form in which the caller omits `timestamp`. -/
def c7Wire : OcpiBaseResponseWire Unit := ⟨none, some 1000, none, none⟩

/-- The decode of `c7Wire` at clock `c7Now`. -/
def c7Rec : OcpiBaseResponse Unit :=
  ⟨none, .SUCCESS, none, ⟨2026, 10, 12, 8, 30, 5, 0, some 0⟩, ["status_code"]⟩

/-- An envelope wire form carrying a naive (offset-less) `timestamp`. -/
def c2NaiveWire : OcpiBaseResponseWire Unit :=
  ⟨none, some 1000, none, some naiveDt⟩

/-- Every int value of `OcpiStatus.ofInt` round-trips, and membership in
the enum is exactly membership in the four declared ranges. -/
lemma ocpiStatus_ofInt_isSome_iff (n : Int) :
    (OcpiStatus.ofInt n).isSome = true ↔
      (n = 1000 ∨ (2000 ≤ n ∧ n ≤ 2004) ∨ (3000 ≤ n ∧ n ≤ 3003) ∨
       (4000 ≤ n ∧ n ≤ 4003)) := by
  by_cases h1 : n = 1000
  · subst h1; decide
  by_cases h2 : n = 2000
  · subst h2; decide
  by_cases h3 : n = 2001
  · subst h3; decide
  by_cases h4 : n = 2002
  · subst h4; decide
  by_cases h5 : n = 2003
  · subst h5; decide
  by_cases h6 : n = 2004
  · subst h6; decide
  by_cases h7 : n = 3000
  · subst h7; decide
  by_cases h8 : n = 3001
  · subst h8; decide
  by_cases h9 : n = 3002
  · subst h9; decide
  by_cases h10 : n = 3003
  · subst h10; decide
  by_cases h11 : n = 4000
  · subst h11; decide
  by_cases h12 : n = 4001
  · subst h12; decide
  by_cases h13 : n = 4002
  · subst h13; decide
  by_cases h14 : n = 4003
  · subst h14; decide
  rw [OcpiStatus.ofInt, if_neg h1, if_neg h2, if_neg h3, if_neg h4, if_neg h5,
    if_neg h6, if_neg h7, if_neg h8, if_neg h9, if_neg h10, if_neg h11,
    if_neg h12, if_neg h13, if_neg h14]
  simp only [Option.isSome_none, Bool.false_eq_true, false_iff]
  omega

/-- Claim C1: validating an EVSE with an empty `connectors` list succeeds
in the embedded context (both as a plain `OcpiEvse` and as an element of a
Location's EVSE collection) and fails in the standalone EVSE-response
context, where at least one connector is required. -/
theorem claim_C1_evse_connector_cardinality_by_context :
    ocpiEvseErrors evseEmptyConnectors = [] ∧
    ocpiLocationEvsesErrors [evseEmptyConnectors] = [] ∧
    ocpiEvseStandaloneErrors evseEmptyConnectors =
      [⟨["connectors"], .listTooShort⟩] :=
  ⟨rfl, rfl, rfl⟩

/-- Claim C2 (evaluation at the failing input): the response envelope's
`timestamp` field is a plain `datetime` (base.py line 110), so a naive
datetime with no UTC offset is accepted and kept naive, while the same
naive datetime supplied to `OcpiConnector.last_updated` (an
`AwareDatetime`, connector.py line 89) is rejected — so naive timestamps
are NOT a validation violation for every timestamp field. -/
theorem claim_C2_envelope_timestamp_accepts_naive :
    decodeOcpiBaseResponse awareDt c2NaiveWire =
      .ok ⟨none, .SUCCESS, none, naiveDt, ["status_code", "timestamp"]⟩ ∧
    naiveDt.isAware = false ∧
    ocpiConnectorErrors { connectorInputVA 230 16 with last_updated := some naiveDt } =
      [⟨["last_updated"], .notAware⟩] :=
  ⟨rfl, rfl, rfl⟩

/-- Claim C3: for `OcpiBaseResponse`, a wire form with `data` entirely
omitted and a wire form with `data` explicitly null both decode, each
re-encodes (pydantic `model_dump` with `exclude_unset`) to its original
wire form, and the two decoded values are distinguishable — they carry the
same `data` value `None` but differ in the fields set. -/
theorem claim_C3_envelope_data_omitted_vs_null :
    decodeOcpiBaseResponse awareDt c3WireOmitted = .ok c3RecOmitted ∧
    encodeOcpiBaseResponse c3RecOmitted = c3WireOmitted ∧
    decodeOcpiBaseResponse awareDt c3WireNull = .ok c3RecNull ∧
    encodeOcpiBaseResponse c3RecNull = c3WireNull ∧
    decodeOcpiBaseResponse awareDt c3WireOmitted1000 = .ok c3RecOmitted1000 ∧
    encodeOcpiBaseResponse c3RecOmitted1000 = c3WireOmitted1000 ∧
    c3RecOmitted1000.data = c3RecNull.data ∧
    c3RecOmitted1000 ≠ c3RecNull :=
  ⟨rfl, rfl, rfl, rfl, rfl, rfl, rfl, by decide⟩

/-- Claim C4: validating an `OcpiBaseResponse` whose `status_code` is the
integer `n` succeeds exactly when `n` lies in one of the four declared
ranges of the closed status-code space (which the declared `OcpiStatus`
constants fill completely), and in particular succeeds for every declared
constant. -/
theorem claim_C4_status_code_closed_space :
    (∀ n : Int, ocpiBaseResponseErrors (c4StatusWire n) = [] ↔
      (n = 1000 ∨ (2000 ≤ n ∧ n ≤ 2004) ∨ (3000 ≤ n ∧ n ≤ 3003) ∨
       (4000 ≤ n ∧ n ≤ 4003))) ∧
    (∀ s : OcpiStatus, ocpiBaseResponseErrors (c4StatusWire s.toInt) = []) := by
  constructor
  · intro n
    rw [← ocpiStatus_ofInt_isSome_iff n]
    simp only [ocpiBaseResponseErrors, c4StatusWire, checkReq]
    cases hs : (OcpiStatus.ofInt n).isSome <;> simp [hs]
  · intro s
    cases s <;> rfl

/-- Claim C5 (counterexample): a `DisplayText` whose language code is the
single character `"e"` — shorter than 2 — passes validation, because
`OcpiDisplayText.language` carries only `max_length=2` and no minimum
(base.py line 53); so not every documented fixed-length code enforces an
exact length. -/
theorem claim_C5_counterexample_display_text_language :
    ocpiDisplayTextErrors ⟨some "e", some "Standard Tariff"⟩ = [] := rfl

/-- Claim C5 (amended): `country_code` shorter than 2 and `party_id`
shorter than 3 are rejected as too short (exact length, both in
`OcpiCdrToken` and in `OcpiSession`), while `OcpiDisplayText.language`
enforces only a maximum of 2 characters, so a shorter language code is
accepted. -/
theorem claim_C5_fixed_length_codes :
    ocpiCdrTokenErrors { cdrTokenValid with country_code := some "D" } =
      [⟨["country_code"], .stringTooShort⟩] ∧
    ocpiCdrTokenErrors { cdrTokenValid with party_id := some "TN" } =
      [⟨["party_id"], .stringTooShort⟩] ∧
    ocpiSessionErrors { sessionBase with country_code := some "D" } =
      [⟨["country_code"], .stringTooShort⟩] ∧
    ocpiSessionErrors { sessionBase with party_id := some "TN" } =
      [⟨["party_id"], .stringTooShort⟩] ∧
    ocpiDisplayTextErrors ⟨some "e", some "Standard Tariff"⟩ = [] :=
  ⟨rfl, rfl, rfl, rfl, rfl⟩

/-- Claim C6 (evaluation at the failing input): an `OcpiConnector` with
`max_voltage = -230` and `max_amperage = -16` passes validation, because
both fields are annotated as plain `int` with no non-negativity
constraint (connector.py lines 84-85) — the code accepts negative values
where the spec's constraint layer requires voltage and amperage to be
non-negative integers. -/
theorem claim_C6_negative_voltage_accepted :
    ocpiConnectorErrors (connectorInputVA (-230) (-16)) = [] := rfl

/-- Claim C7: whenever the caller omits `timestamp`, the decoded envelope's
timestamp is the clock value passed to that very construction call —
`datetime.now(timezone.utc)` — truncated to whole seconds: zero
microseconds and the explicit UTC offset, resolved per call and not from
any module-level state. -/
theorem claim_C7_envelope_timestamp_default (now : PyDatetime)
    (w : OcpiBaseResponseWire Unit) (r : OcpiBaseResponse Unit)
    (hnow : now.utcOffsetMinutes = some 0)
    (hw : w.timestamp = none)
    (hd : decodeOcpiBaseResponse now w = .ok r) :
    r.timestamp = now.replaceMicrosecond 0 ∧
    r.timestamp.microsecond = 0 ∧
    r.timestamp.utcOffsetMinutes = some 0 ∧
    r.timestamp.isAware = true := by
  cases hsc : w.status_code with
  | none => simp [decodeOcpiBaseResponse, hsc] at hd
  | some n =>
    cases hoi : OcpiStatus.ofInt n with
    | none => simp [decodeOcpiBaseResponse, hsc, hoi] at hd
    | some sc =>
      simp only [decodeOcpiBaseResponse, hsc, hoi] at hd
      cases hd
      simp [hw, envelopeDefaultTimestamp, PyDatetime.replaceMicrosecond,
        PyDatetime.isAware, hnow]

/-- Claim C7 (witness): the default-timestamp theorem applied to a
concrete clock reading with a nonzero sub-second part and a wire form
omitting `timestamp`. -/
theorem claim_C7_envelope_timestamp_default_witness :
    c7Rec.timestamp = c7Now.replaceMicrosecond 0 ∧
    c7Rec.timestamp.microsecond = 0 ∧
    c7Rec.timestamp.utcOffsetMinutes = some 0 ∧
    c7Rec.timestamp.isAware = true :=
  claim_C7_envelope_timestamp_default c7Now c7Wire c7Rec rfl rfl rfl

/-- Claim C8: for the `OcpiSession` aggregate, the complete input
validates; omitting any one of the thirteen required fields yields exactly
one violation naming that field's path; and omitting every field yields
one `missing` violation per required field — thirteen of them, in field
declaration order — not a single aggregate-level failure. -/
theorem claim_C8_all_violations_reported :
    ocpiSessionErrors sessionBase = [] ∧
    ocpiSessionErrors { sessionBase with country_code := none } =
      [⟨["country_code"], .missing⟩] ∧
    ocpiSessionErrors { sessionBase with party_id := none } =
      [⟨["party_id"], .missing⟩] ∧
    ocpiSessionErrors { sessionBase with id := none } =
      [⟨["id"], .missing⟩] ∧
    ocpiSessionErrors { sessionBase with start_date_time := none } =
      [⟨["start_date_time"], .missing⟩] ∧
    ocpiSessionErrors { sessionBase with kwh := none } =
      [⟨["kwh"], .missing⟩] ∧
    ocpiSessionErrors { sessionBase with cdr_token := none } =
      [⟨["cdr_token"], .missing⟩] ∧
    ocpiSessionErrors { sessionBase with auth_method := none } =
      [⟨["auth_method"], .missing⟩] ∧
    ocpiSessionErrors { sessionBase with location_id := none } =
      [⟨["location_id"], .missing⟩] ∧
    ocpiSessionErrors { sessionBase with evse_uid := none } =
      [⟨["evse_uid"], .missing⟩] ∧
    ocpiSessionErrors { sessionBase with connector_id := none } =
      [⟨["connector_id"], .missing⟩] ∧
    ocpiSessionErrors { sessionBase with currency := none } =
      [⟨["currency"], .missing⟩] ∧
    ocpiSessionErrors { sessionBase with status := none } =
      [⟨["status"], .missing⟩] ∧
    ocpiSessionErrors { sessionBase with last_updated := none } =
      [⟨["last_updated"], .missing⟩] ∧
    ocpiSessionErrors sessionAllOmitted =
      [⟨["country_code"], .missing⟩, ⟨["party_id"], .missing⟩,
       ⟨["id"], .missing⟩, ⟨["start_date_time"], .missing⟩,
       ⟨["kwh"], .missing⟩, ⟨["cdr_token"], .missing⟩,
       ⟨["auth_method"], .missing⟩, ⟨["location_id"], .missing⟩,
       ⟨["evse_uid"], .missing⟩, ⟨["connector_id"], .missing⟩,
       ⟨["currency"], .missing⟩, ⟨["status"], .missing⟩,
       ⟨["last_updated"], .missing⟩] :=
  ⟨rfl, rfl, rfl, rfl, rfl, rfl, rfl, rfl, rfl, rfl, rfl, rfl, rfl, rfl, rfl⟩

/-- Claim C9: a session whose `evse_uid` and `connector_id` are the
sentinel string `#NA` and whose status is `PENDING` decodes with no
violation — `evse_uid` and `connector_id` are plain strings of at most 36
characters with no cross-field rule against the sentinel. -/
theorem claim_C9_pending_na_sentinel :
    c9Session.evse_uid = some "#NA" ∧
    c9Session.connector_id = some "#NA" ∧
    c9Session.status = some "PENDING" ∧
    ocpiSessionErrors c9Session = [] :=
  ⟨rfl, rfl, rfl, rfl⟩

/-- Claim C10 (evaluation at the failing attribute access): the canonical
example of `OcpiVersion` (versions/__init__.py line 84, reused at line 95)
reads the member `v2_2_1` of `OcpiVersionNumberEnum`, but the enum's only
member is named `v221`, so the attribute lookup finds nothing (Python
raises `AttributeError` while evaluating the class body). -/
theorem claim_C10_version_example_member_missing :
    pyEnumGetattr ocpiVersionNumberEnumMembers "v2_2_1" = none ∧
    pyEnumGetattr ocpiVersionNumberEnumMembers "v221" = some "2.2.1" :=
  ⟨rfl, rfl⟩
